import Mathlib

/-!
# Verification of the virtual-commuter routing job queue (`src/otp/vc_router.py`)

A shallow embedding of the job-queue and worker-pool subsystem of
`vc_router.py`: job generation, atomic claiming, stale-job reclamation,
the per-worker circuit breaker, result persistence, and the pure metric
extraction helpers.  Each definition translates one Python function or one
document-store primitive the Python code calls.

Modelling conventions:
* Timestamps (`datetime.now()`, itinerary times) are integers in
  milliseconds since the epoch.
* A Mongo collection is a list of documents in natural order;
  `find_one_and_update`, `update_one`, `update_many`, `find_one` and
  uniqueness-checked `insert_one` are modelled as list operations below.
* Store-assigned object ids and fresh uuids are supplied by explicit
  parameters or oracle functions.
* The external OTP engine (`otp.get_route`, `otp.get_delayed_route`) is a
  parameter: a function from the requested mode list to its response.
  `otp.get_route` may return a null list in Python, hence
  `Option (List Itinerary)`.
* The helpers of the external module `vc_extract`
  (`extract_origin_loc`, `extract_destination_loc`, `extract_departure`,
  `has_motor_vehicle`, `should_route`, `extract_traveller`) are modelled
  as record fields of the commuter, faithful to the spec, which treats
  vehicle access and the routing flag as rider attributes.
-/

namespace VcRouter

/-! ## Geographic coordinates and itineraries (engine data model) -/

/-- A longitude/latitude pair, degrees, exact rationals. -/
structure Coord where
  lon : ℚ
  lat : ℚ
deriving DecidableEq, Repr

/-- One itinerary segment: mode, scheduled times, optional real-time
overrides, endpoint coordinates (fields of the engine response consulted by
`__extract_mode_data`). -/
structure Leg where
  mode : String
  startTime : ℤ
  endTime : ℤ
  rtStartTime : Option ℤ := none
  rtEndTime : Option ℤ := none
  legFrom : Coord
  legTo : Coord
deriving DecidableEq, Repr

/-- One planned trip returned by the engine: scheduled start/end times,
optional real-time overrides, recalculation counter, ordered legs. -/
structure Itinerary where
  startTime : ℤ
  endTime : ℤ
  rtStartTime : Option ℤ := none
  rtEndTime : Option ℤ := none
  reCalcCount : ℕ := 0
  legs : List Leg := []
deriving DecidableEq, Repr

instance : Inhabited Itinerary := ⟨{ startTime := 0, endTime := 0 }⟩

/-! ## Job documents and commuters -/

/-- The closed job-state enum: `status` of a route-calculation job. -/
inductive JobStatus
  | pending
  | running
  | done
  | error
deriving DecidableEq, Repr

/-- A document of the `route-calculation-jobs` collection:
`\x7b _id, vc-id, sim-id, status, created, started?, finished?, error? \x7d`. -/
structure Job where
  jobId : Nat
  vcId : Nat
  simId : Nat
  status : JobStatus
  created : ℤ := 0
  started : Option ℤ := none
  finished : Option ℤ := none
  errorMsg : Option String := none
deriving DecidableEq, Repr

/-- A virtual-commuter document together with the attributes the external
`vc_extract` module reads off it.  Modelled from the spec: identity,
simulation identity, origin, destination, departure time and rider
attributes (vehicle access, whether to route at all) are immutable input
fields of the commuter. -/
structure VirtualCommuter where
  vcId : Nat
  simId : Nat
  hasMotorVehicleAttr : Bool
  shouldRouteAttr : Bool := true
  origin : Coord
  destination : Coord
  departure : ℤ := 0
  traveller : String := ""
deriving DecidableEq, Repr

/-- Modelled from the spec: `vc_extract.has_motor_vehicle(vc)` reads the
vehicle-access rider attribute of the commuter. -/
def has_motor_vehicle (vc : VirtualCommuter) : Bool := vc.hasMotorVehicleAttr

/-- Modelled from the spec: `vc_extract.should_route(vc)` reads the flag
deciding whether the commuter is routed at all. -/
def should_route (vc : VirtualCommuter) : Bool := vc.shouldRouteAttr

/-- Modelled from the spec: `vc_extract.extract_traveller(vc)` extracts the
traveller attributes persisted with the per-option summary. -/
def extract_traveller (vc : VirtualCommuter) : String := vc.traveller

/-! ## Document-store primitives

The Python code talks to MongoDB; these are the store operations it uses,
over a collection modelled as a list of documents in natural order. -/

/-- `coll.find_one_and_update(filter, update)` with the default
`return_document=BEFORE`: updates the first document matching `p` in place
and returns it as it existed before the update; `(none, unchanged)` when no
document matches. -/
def find_one_and_update {α : Type} (p : α → Bool) (u : α → α) :
    List α → Option α × List α
  | [] => (none, [])
  | d :: rest =>
    if p d then (some d, u d :: rest)
    else
      let r := find_one_and_update p u rest
      (r.1, d :: r.2)

/-- `coll.update_one(filter, update)`: updates the first document matching
`p`, leaves every other document alone. -/
def update_one {α : Type} (p : α → Bool) (u : α → α) : List α → List α
  | [] => []
  | d :: rest => if p d then u d :: rest else d :: update_one p u rest

/-- `coll.update_many(filter, update)`: updates every document matching
`p`. -/
def update_many {α : Type} (p : α → Bool) (u : α → α) (coll : List α) :
    List α :=
  coll.map fun d => if p d then u d else d

/-- `coll.find_one(filter)`: the first document matching `p`, if any. -/
def find_one {α : Type} (p : α → Bool) (coll : List α) : Option α :=
  coll.find? p

/-- Modelled from the spec: the uniqueness-enforced `coll.insert_one(doc)`.
The store holds a unique index whose key is given by the `conflict`
predicate (per the spec: one job per commuter, one current result document
per commuter); insertion appends the document, or reports
`DuplicateKeyError` as `none` when a document with the same key already
exists. -/
def insert_one {α : Type} (conflict : α → α → Bool) (coll : List α)
    (doc : α) : Option (List α) :=
  if coll.any (conflict doc) then none else some (coll ++ [doc])

/-! ## Stale-job reclamation (`__reset_timed_out_jobs`) -/

/-- Five minutes in milliseconds: the fixed lease timeout
`timedelta(minutes=5)`. -/
def five_minutes : ℤ := 5 * 60 * 1000

/-- The reclamation filter
`\x7b status: running, started: \x7b lt: now - 5 minutes \x7d \x7d`: a
document with no `started` field does not match the range condition. -/
def stale_filter (now : ℤ) (j : Job) : Bool :=
  j.status == .running &&
    (match j.started with
     | some t => decide (t < now - five_minutes)
     | none => false)

/-- `__reset_timed_out_jobs(db)`: one bulk update over the whole
`route-calculation-jobs` collection, setting `status` back to `pending` on
every job whose status is `running` and whose `started` timestamp is older
than five minutes before `now`.  Note the filter carries no `sim-id`
condition: the sweep is store-wide, not scoped to one simulation. -/
def __reset_timed_out_jobs (jobs : List Job) (now : ℤ) : List Job :=
  update_many (stale_filter now) (fun j => { j with status := .pending }) jobs

/-! ## Job generation (`__create_route_calculation_jobs`) -/

/-- The aggregation pipeline of `__create_route_calculation_jobs`: commuters
of the simulation (`match sim-id`) whose `lookup` against
`route-calculation-jobs` on `vc-id = vc-id` matches no document
(`matched_docs` of size 0).  The anti-join is on commuter identity alone,
against the whole jobs collection. -/
def candidate_vcs (vcs : List VirtualCommuter) (jobs : List Job)
    (simId : Nat) : List VirtualCommuter :=
  vcs.filter fun vc =>
    vc.simId == simId && !(jobs.any fun j => j.vcId == vc.vcId)

/-- The job document built in the generator loop:
`\x7b vc-id, sim-id, created, status: pending \x7d` (the store assigns
`_id`, modelled by the explicit `id` argument). -/
def job_of_vc (vc : VirtualCommuter) (now : ℤ) (id : Nat) : Job :=
  { jobId := id, vcId := vc.vcId, simId := vc.simId, created := now,
    status := .pending }

/-- Two job documents collide on the unique index exactly when they agree on
`(vc-id, sim-id)` (the spec: at most one job per commuter and
simulation). -/
def job_conflict (a b : Job) : Bool :=
  a.vcId == b.vcId && a.simId == b.simId

/-- The unique-index key of a job. -/
def job_key (j : Job) : Nat × Nat := (j.vcId, j.simId)

/-- One iteration of the generator loop: `insert_one(job)`, and on
`DuplicateKeyError` `continue` (the job was created by another process). -/
def insert_job_step (acc : List Job) (vc : VirtualCommuter) (now : ℤ)
    (id : Nat) : List Job :=
  match insert_one job_conflict acc (job_of_vc vc now id) with
  | some acc2 => acc2
  | none => acc

/-- `__create_route_calculation_jobs(db, sim_id)`: runs the anti-join
pipeline (over the collections as they stand when the cursor is taken),
then inserts one pending job per resulting commuter, silently skipping
duplicate-key violations.  `fresh` supplies the store-assigned id of the
job created for a given commuter id. -/
def __create_route_calculation_jobs (vcs : List VirtualCommuter)
    (jobs : List Job) (simId : Nat) (now : ℤ) (fresh : Nat → Nat) :
    List Job :=
  (candidate_vcs vcs jobs simId).foldl
    (fun acc vc => insert_job_step acc vc now (fresh vc.vcId)) jobs

/-! ## Distance approximation (`__approx_dist`) -/

/-- `math.atan2(y, x)`: the angle of the point `(x, y)`, by quadrant. -/
noncomputable def atan2 (y x : ℝ) : ℝ :=
  if 0 < x then Real.arctan (y / x)
  else if x < 0 then
    (if 0 ≤ y then Real.arctan (y / x) + Real.pi
     else Real.arctan (y / x) - Real.pi)
  else
    (if 0 < y then Real.pi / 2
     else if y < 0 then -(Real.pi / 2)
     else 0)

/-- `math.radians(d)`: degrees to radians. -/
noncomputable def radians (d : ℚ) : ℝ := (d : ℝ) * (Real.pi / 180)

/-- `__approx_dist(origin, destination)`: the Haversine great-circle
approximation of the distance between two coordinates, in meters, with
Earth radius 6371 km.  Idealized over the reals (the Python code computes
it in floating point). -/
noncomputable def __approx_dist (origin destination : Coord) : ℝ :=
  let lon1 := radians origin.lon
  let lat1 := radians origin.lat
  let lon2 := radians destination.lon
  let lat2 := radians destination.lat
  let R : ℝ := 6371.0
  let dlon := lon2 - lon1
  let dlat := lat2 - lat1
  let a := Real.sin (dlat / 2) ^ 2 +
    Real.cos lat1 * Real.cos lat2 * Real.sin (dlon / 2) ^ 2
  let c := 2 * atan2 (Real.sqrt a) (Real.sqrt (1 - a))
  let distance_km := R * c
  distance_km * 1000

/-! ## Metric extraction (`__extract_mode_data`, `__extract_relevant_data`) -/

/-- The per-leg summary: mode (lower-cased), duration in seconds, distance
in meters. -/
structure ModeData where
  mode : String
  duration : ℚ
  distance : ℝ

/-- `__extract_mode_data(leg)`: real-time-aware start/end times of the leg,
duration in seconds, Haversine distance between the leg endpoints. -/
noncomputable def __extract_mode_data (leg : Leg) : ModeData :=
  let start_time : ℤ :=
    match leg.rtStartTime with
    | some t => t
    | none => leg.startTime
  let end_time : ℤ :=
    match leg.rtEndTime with
    | some t => t
    | none => leg.endTime
  let duration : ℚ := ((end_time - start_time : ℤ) : ℚ) / 1000
  { mode := leg.mode.toLower, duration := duration,
    distance := __approx_dist leg.legFrom leg.legTo }

/-- One mode combination with its computed route: the dictionary built by
`__get_route_option`. -/
structure RouteOption where
  routeOptionId : String
  origin : Coord
  destination : Coord
  departure : ℤ
  modes : List String
  itineraries : List Itinerary
deriving DecidableEq, Repr

/-- The per-option summary built by `__extract_relevant_data`. -/
structure RouteOptionSummary where
  routeOptionId : String
  routeDuration : ℚ
  routeChanges : ℤ
  routeDelay : ℚ
  routeRecalculations : ℕ
  modes : List ModeData

/-- `__extract_relevant_data(route_details)`: reads `itineraries[0]` (the
caller always passes a non-empty list; `headI` stands for the Python `[0]`
indexing), computes delay and duration from the real-time-aware end time,
counts mode changes starting at -1 and skipping `WALK` legs (clamped up to
0), passes `reCalcCount` through, and summarizes every leg. -/
noncomputable def __extract_relevant_data (route_details : RouteOption) :
    RouteOptionSummary :=
  let itinerary := route_details.itineraries.headI
  let start_time := itinerary.startTime
  let end_time := itinerary.endTime
  let actual_end_time : ℤ :=
    match itinerary.rtEndTime with
    | some t => t
    | none => end_time
  let delay : ℚ := ((actual_end_time - end_time : ℤ) : ℚ) / 1000
  let duration : ℚ := ((actual_end_time - start_time : ℤ) : ℚ) / 1000
  let changes0 : ℤ := itinerary.legs.foldl
    (fun c leg => if leg.mode == "WALK" then c else c + 1) (-1)
  let changes : ℤ := if changes0 == -1 then 0 else changes0
  { routeOptionId := route_details.routeOptionId,
    routeDuration := duration,
    routeChanges := changes,
    routeDelay := delay,
    routeRecalculations := itinerary.reCalcCount,
    modes := itinerary.legs.map __extract_mode_data }

/-! ## Routing one commuter (`__get_route_option`,
`__route_virtual_commuter`)

The engine is a parameter: `engineDelayed` models
`otp.get_delayed_route(...)` (a single itinerary or `None`), `engineNormal`
models `otp.get_route(...)` (a list of itineraries, possibly `None`), each
as a function of the requested mode list, the other request arguments being
fixed by the commuter. -/

/-- `__get_route_option(vc, sim, uses_delays, modes)`: one engine request
for one mode combination; `none` when the engine yields no itinerary,
otherwise the option dictionary with a fresh uuid `oid`. -/
def __get_route_option (vc : VirtualCommuter) (uses_delays : Bool)
    (engineDelayed : List String → Option Itinerary)
    (engineNormal : List String → Option (List Itinerary))
    (oid : String) (modes : List String) : Option RouteOption :=
  let origin := vc.origin
  let destination := vc.destination
  let departure := vc.departure
  let itineraries? : Option (List Itinerary) :=
    if uses_delays then
      match engineDelayed modes with
      | none => none
      | some itinerary => some [itinerary]
    else engineNormal modes
  match itineraries? with
  | none => none
  | some itineraries =>
    if itineraries.length == 0 then none
    else
      some { routeOptionId := oid, origin := origin,
             destination := destination, departure := departure,
             modes := modes, itineraries := itineraries }

/-- `__route_virtual_commuter(vc, sim, uses_delays)`: the candidate mode
combinations are walk+transit always, plus walk+car when the commuter has
motor-vehicle access; one `__get_route_option` request per combination,
options that came back `None` filtered out.  `uuid` supplies the fresh
route-option id for each request. -/
def __route_virtual_commuter (vc : VirtualCommuter) (uses_delays : Bool)
    (engineDelayed : List String → Option Itinerary)
    (engineNormal : List String → Option (List Itinerary))
    (uuid : List String → String) : List RouteOption :=
  let mode_combinations :=
    [["WALK", "TRANSIT"]] ++
      (if has_motor_vehicle vc then [["WALK", "CAR"]] else [])
  let options := mode_combinations.map fun modes =>
    __get_route_option vc uses_delays engineDelayed engineNormal
      (uuid modes) modes
  options.filterMap id

/-! ## Result persistence (`__process_virtual_commuter`) -/

/-- A document of the `route-results` collection: the raw option set for
one commuter plus context metadata (`meta` opaque here).  `storeId` is the
store-assigned `_id`. -/
structure ResultDoc where
  storeId : Nat
  vcId : Nat
  simId : Nat
  created : ℤ
  options : List RouteOption
  meta : String
deriving DecidableEq, Repr

/-- A document of the `route-options` collection: the decision-ready
per-option summaries plus traveller attributes. -/
structure SummaryDoc where
  storeId : Nat
  vcId : Nat
  simId : Nat
  created : ℤ
  traveller : String
  options : List RouteOptionSummary

/-- Modelled from the spec: the unique index of the `route-results`
collection keys on the commuter (one current document per commuter), so two
documents collide exactly when they share `vc-id`. -/
def result_conflict (a b : ResultDoc) : Bool := a.vcId == b.vcId

/-- Modelled from the spec: the unique index of the `route-options`
collection, same commuter key. -/
def summary_conflict (a b : SummaryDoc) : Bool := a.vcId == b.vcId

/-- The `except DuplicateKeyError` handler for `route-results`: drop the
store-assigned `_id` from the freshly built document and
`update_one(\x7b vc-id \x7d, \x7b set: content \x7d)` — the first existing
document for the commuter takes every field of the new content and keeps
its own `_id`. -/
def upsert_result (coll : List ResultDoc) (doc : ResultDoc) :
    List ResultDoc :=
  match insert_one result_conflict coll doc with
  | some coll2 => coll2
  | none =>
    update_one (fun d => d.vcId == doc.vcId)
      (fun d => { doc with storeId := d.storeId }) coll

/-- The identical insert-or-on-conflict-update pattern for
`route-options`. -/
def upsert_summary (coll : List SummaryDoc) (doc : SummaryDoc) :
    List SummaryDoc :=
  match insert_one summary_conflict coll doc with
  | some coll2 => coll2
  | none =>
    update_one (fun d => d.vcId == doc.vcId)
      (fun d => { doc with storeId := d.storeId }) coll

/-- The fresh `route-results` document built by
`__process_virtual_commuter` (`rid` is the store-assigned `_id`). -/
def fresh_result_doc (vc : VirtualCommuter) (options : List RouteOption)
    (now : ℤ) (meta : String) (rid : Nat) : ResultDoc :=
  { storeId := rid, vcId := vc.vcId, simId := vc.simId, created := now,
    options := options, meta := meta }

/-- The fresh `route-options` document built by
`__process_virtual_commuter`. -/
noncomputable def fresh_summary_doc (vc : VirtualCommuter)
    (options : List RouteOption) (now : ℤ) (sid : Nat) : SummaryDoc :=
  { storeId := sid, vcId := vc.vcId, simId := vc.simId, created := now,
    traveller := extract_traveller vc,
    options := options.map __extract_relevant_data }

/-- `__process_virtual_commuter(route_results_coll, route_options_coll, vc,
sim, use_delays, meta)`: route the commuter; raise `No route found` when
every mode combination came back empty; otherwise persist the raw options
and the extracted summaries, each by insert with the duplicate-key fallback
to an in-place update.  Returns the two collections after the writes; the
`Except` error is the exception propagated to the caller. -/
noncomputable def __process_virtual_commuter
    (route_results_coll : List ResultDoc)
    (route_options_coll : List SummaryDoc) (vc : VirtualCommuter)
    (uses_delays : Bool) (engineDelayed : List String → Option Itinerary)
    (engineNormal : List String → Option (List Itinerary))
    (uuid : List String → String) (now : ℤ) (meta : String)
    (rid sid : Nat) : Except String (List ResultDoc × List SummaryDoc) :=
  let options := __route_virtual_commuter vc uses_delays engineDelayed
    engineNormal uuid
  if options.length == 0 then Except.error "No route found"
  else
    let coll1 := upsert_result route_results_coll
      (fresh_result_doc vc options now meta rid)
    let coll2 := upsert_summary route_options_coll
      (fresh_summary_doc vc options now sid)
    Except.ok (coll1, coll2)

/-! ## The worker loop (`__iterate_jobs`) -/

/-- The claim filter `\x7b status: pending, sim-id: sim_id \x7d`. -/
def claim_filter (simId : Nat) (j : Job) : Bool :=
  j.status == .pending && j.simId == simId

/-- The claim update
`\x7b set: \x7b status: running, started: now \x7d \x7d`. -/
def claim_update (now : ℤ) (j : Job) : Job :=
  { j with status := .running, started := some now }

/-- The single atomic claim of `__iterate_jobs`:
`find_one_and_update(claim filter, claim update)` on the jobs
collection. -/
def claim_next (jobs : List Job) (simId : Nat) (now : ℤ) :
    Option Job × List Job :=
  find_one_and_update (claim_filter simId) (claim_update now) jobs

/-- The success commit:
`update_one(\x7b _id \x7d, \x7b set: \x7b status: done,
finished: now \x7d \x7d)`. -/
def commit_done (jobs : List Job) (id : Nat) (now : ℤ) : List Job :=
  update_one (fun j => j.jobId == id)
    (fun j => { j with status := .done, finished := some now }) jobs

/-- The failure commit: `update_one(\x7b _id \x7d, \x7b set:
\x7b status: error, error: msg, finished: now \x7d \x7d)`. -/
def commit_error (jobs : List Job) (id : Nat) (msg : String) (now : ℤ) :
    List Job :=
  update_one (fun j => j.jobId == id)
    (fun j => { j with
                status := .error,
                errorMsg := some msg,
                finished := some now }) jobs

/-- Everything one worker reads from its surroundings: the simulation id,
the commuter collection, the delay flag, the engine and uuid oracles
(indexed by the iteration number), the metadata document, the
store-assigned ids for the two result documents of each iteration, and the
clock. -/
structure LoopEnv where
  simId : Nat
  vcs : List VirtualCommuter
  usesDelays : Bool
  engineDelayed : Nat → List String → Option Itinerary
  engineNormal : Nat → List String → Option (List Itinerary)
  uuid : Nat → List String → String
  meta : String
  fresh : Nat → Nat × Nat
  now : ℤ

/-- The mutable state of one worker: the three collections it writes and
its own `consecutive_error_number`; `stoppedByBreaker` records whether the
loop ended through the circuit breaker rather than queue exhaustion. -/
structure LoopState where
  jobs : List Job
  results : List ResultDoc
  summaries : List SummaryDoc
  cec : Nat
  stoppedByBreaker : Bool

/-- The `try` block of the loop body: look up the commuter of the claimed
job; a missing commuter raises (`should_route(None)` fails in Python);
when `should_route` is false, do nothing and fall through to the success
commit; otherwise run `__process_virtual_commuter`. -/
noncomputable def loop_try_body (env : LoopEnv) (k : Nat)
    (rc : List ResultDoc) (oc : List SummaryDoc) (vcId : Nat) :
    Except String (List ResultDoc × List SummaryDoc) :=
  match find_one (fun v => v.vcId == vcId) env.vcs with
  | none => Except.error "NoneType has no attribute"
  | some vc =>
    if should_route vc then
      __process_virtual_commuter rc oc vc env.usesDelays
        (env.engineDelayed k) (env.engineNormal k) (env.uuid k) env.now
        env.meta (env.fresh k).1 (env.fresh k).2
    else Except.ok (rc, oc)

/-- The outcome of one pass through the `while True` body: `halt` leaves
the loop (queue exhausted or breaker tripped), `next` goes round again. -/
inductive StepOut
  | halt (st : LoopState)
  | next (st : LoopState)

/-- The part of the loop body after a successful claim of `job` (with
`jobs1` the jobs collection right after the claim): run the `try` block;
on success commit `done` — the error counter is left untouched, the code
has no reset; on an exception commit `error` with the prefixed
description, increment `consecutive_error_number` and break once it
reaches 5. -/
noncomputable def loop_after_claim (env : LoopEnv) (k : Nat)
    (st : LoopState) (job : Job) (jobs1 : List Job) : StepOut :=
  match loop_try_body env k st.results st.summaries job.vcId with
  | .ok (rc, oc) =>
    .next { jobs := commit_done jobs1 job.jobId env.now, results := rc,
            summaries := oc, cec := st.cec,
            stoppedByBreaker := st.stoppedByBreaker }
  | .error msg =>
    let msg2 :=
      "Exception occurred while running routing algorithm: " ++ msg
    let jobs2 := commit_error jobs1 job.jobId msg2 env.now
    let cec2 := st.cec + 1
    if 5 ≤ cec2 then
      .halt { jobs := jobs2, results := st.results,
              summaries := st.summaries, cec := cec2,
              stoppedByBreaker := true }
    else
      .next { jobs := jobs2, results := st.results,
              summaries := st.summaries, cec := cec2,
              stoppedByBreaker := st.stoppedByBreaker }

/-- One pass through the loop body of `__iterate_jobs`: claim (break when
no job matches), then `loop_after_claim`. -/
noncomputable def loop_step (env : LoopEnv) (k : Nat) (st : LoopState) :
    StepOut :=
  match claim_next st.jobs env.simId env.now with
  | (none, _) => .halt st
  | (some job, jobs1) => loop_after_claim env k st job jobs1

/-- The `while True` loop, driven by `loop_step`.  `fuel` bounds the
number of passes; since every pass claims one pending job and no pass
creates one, `pending count + 1` passes always reach the natural exit, so
a fuel of `jobs.length + 1` (as `__iterate_jobs` supplies) never cuts the
loop short. -/
noncomputable def loop_go (env : LoopEnv) :
    Nat → Nat → LoopState → LoopState
  | 0, _, st => st
  | fuel + 1, k, st =>
    match loop_step env k st with
    | .halt st2 => st2
    | .next st2 => loop_go env fuel (k + 1) st2

/-- `__iterate_jobs(db, sim, meta)`: one worker running the loop from a
fresh error counter over the given collections. -/
noncomputable def __iterate_jobs (env : LoopEnv) (jobs : List Job)
    (rc : List ResultDoc) (oc : List SummaryDoc) : LoopState :=
  loop_go env (jobs.length + 1) 0
    { jobs := jobs, results := rc, summaries := oc, cec := 0,
      stoppedByBreaker := false }

/-! ## Concrete inputs used by the evaluation and witness theorems -/

def coordA : Coord := { lon := 0, lat := 0 }

def coordB : Coord := { lon := 1, lat := 1 }

/-- The walk-bus-walk example itinerary of the spec: start 0 ms, end
600000 ms, no real-time fields. -/
def walkLegOne : Leg :=
  { mode := "WALK", startTime := 0, endTime := 60000, legFrom := coordA,
    legTo := coordB }

def busLeg : Leg :=
  { mode := "BUS", startTime := 60000, endTime := 540000,
    legFrom := coordB, legTo := coordA }

def walkLegTwo : Leg :=
  { mode := "WALK", startTime := 540000, endTime := 600000,
    legFrom := coordA, legTo := coordB }

def exampleItinerary : Itinerary :=
  { startTime := 0, endTime := 600000,
    legs := [walkLegOne, busLeg, walkLegTwo] }

/-- The same itinerary with a real-time end 120000 ms past the scheduled
end. -/
def exampleItineraryRt : Itinerary :=
  { exampleItinerary with rtEndTime := some 720000 }

/-- A trivial itinerary with no legs (used where leg content is
irrelevant). -/
def plainItinerary : Itinerary := { startTime := 0, endTime := 1000 }

def routeOptionOf (itins : List Itinerary) : RouteOption :=
  { routeOptionId := "option-1", origin := coordA, destination := coordB,
    departure := 0, modes := ["WALK", "TRANSIT"], itineraries := itins }

/-- Two route options agreeing on the first itinerary, differing in the
tail. -/
def optionHeadShared : RouteOption :=
  routeOptionOf [exampleItinerary, exampleItineraryRt]

def optionHeadOnly : RouteOption := routeOptionOf [exampleItinerary]

/-- Commuters for the generator witness: two of simulation 1, one of
simulation 2; commuter 2 already has a job. -/
def vcOne : VirtualCommuter :=
  { vcId := 1, simId := 1, hasMotorVehicleAttr := false, origin := coordA,
    destination := coordB }

def vcTwo : VirtualCommuter :=
  { vcId := 2, simId := 1, hasMotorVehicleAttr := true, origin := coordA,
    destination := coordB }

def vcThree : VirtualCommuter :=
  { vcId := 3, simId := 2, hasMotorVehicleAttr := false, origin := coordA,
    destination := coordB }

def existingJob : Job :=
  { jobId := 50, vcId := 2, simId := 1, status := .done }

/-- A commuter the worker must not route. -/
def vcNoRoute : VirtualCommuter :=
  { vcId := 3, simId := 1, hasMotorVehicleAttr := false,
    shouldRouteAttr := false, origin := coordA, destination := coordB }

/-- A commuter with a persisted result document already in the store. -/
def vcSeven : VirtualCommuter :=
  { vcId := 7, simId := 1, hasMotorVehicleAttr := false, origin := coordA,
    destination := coordB }

def engineOneRoute : List String → Option (List Itinerary) :=
  fun _ => some [exampleItinerary]

def engineNoDelayed : List String → Option Itinerary := fun _ => none

def uuidFixed : List String → String := fun _ => "uuid-1"

def oldResultDoc : ResultDoc :=
  { storeId := 99, vcId := 7, simId := 1, created := -5, options := [],
    meta := "old" }

/-- The pending job of the unrouted commuter. -/
def jobSkip : Job :=
  { jobId := 11, vcId := 3, simId := 1, status := .pending }

/-- The jobs collection right after `jobSkip` is claimed at time 42. -/
def jobsSkipAfter : List Job :=
  [{ jobSkip with status := .running, started := some 42 }]

/-- The worker-step witness state: one pending job for the unrouted
commuter, an error count already at 2. -/
def stSkip : LoopState :=
  { jobs := [jobSkip],
    results := [], summaries := [], cec := 2, stoppedByBreaker := false }

def envSkip : LoopEnv :=
  { simId := 1, vcs := [vcNoRoute], usesDelays := false,
    engineDelayed := fun _ _ => none, engineNormal := fun _ _ => none,
    uuid := fun _ _ => "u", meta := "", fresh := fun _ => (0, 1),
    now := 42 }

/-- Same simulation, commuters and clock as `envSkip`, entirely different
routing engine. -/
def envSkipAlt : LoopEnv :=
  { envSkip with
    usesDelays := true,
    engineDelayed := fun _ _ => some exampleItinerary,
    engineNormal := fun _ _ => some [exampleItinerary],
    uuid := fun _ _ => "w", meta := "other", fresh := fun _ => (8, 9) }

/-- Ten commuters and ten pending jobs of simulation 1 for the breaker
evaluation. -/
def breakerVcs : List VirtualCommuter :=
  (List.range 10).map fun i =>
    { vcId := i, simId := 1, hasMotorVehicleAttr := false,
      origin := coordA, destination := coordB }

def breakerJobs : List Job :=
  (List.range 10).map fun i =>
    { jobId := i, vcId := i, simId := 1, status := .pending }

/-- The breaker evaluation environment: the engine fails (no itinerary) on
every even iteration and succeeds on every odd one, so failures alternate
with successes and no two failures are consecutive. -/
def breakerEnv : LoopEnv :=
  { simId := 1, vcs := breakerVcs, usesDelays := false,
    engineDelayed := fun _ _ => none,
    engineNormal := fun k _ =>
      if k % 2 == 1 then some [plainItinerary] else none,
    uuid := fun _ _ => "u", meta := "",
    fresh := fun k => (2 * k, 2 * k + 1), now := 0 }

/-- Two jobs of two different simulations, both running and stale. -/
def staleJobSimOne : Job :=
  { jobId := 1, vcId := 1, simId := 1, status := .running,
    started := some 0 }

def staleJobSimTwo : Job :=
  { jobId := 2, vcId := 2, simId := 2, status := .running,
    started := some 0 }

/-! ## Spec-side definitions (for refinement statements) -/

/-- Spec side, from §4.3 of the spec: `claim_next` picks the first job
matching `\x7b status: pending, simulation_id \x7d`, returns it as it
existed before the update, and stores it with
`\x7b status: running, started_at: now \x7d`; `none` and an unchanged
collection when no job matches. -/
def claim_next_spec (jobs : List Job) (simId : Nat) (now : ℤ) :
    Option Job × List Job :=
  match jobs.findIdx? (claim_filter simId) with
  | none => (none, jobs)
  | some i => (jobs[i]?, jobs.modify (claim_update now) i)

/-- Spec side, from §4.7 of the spec: the real-time end time if present,
else the scheduled end time. -/
def actual_end_of (itin : Itinerary) : ℤ := itin.rtEndTime.getD itin.endTime

/-! ## Helper lemmas about the store primitives -/

theorem find_one_and_update_eq_some {α : Type} (p : α → Bool) (u : α → α)
    (l : List α) (a : α) (l2 : List α)
    (h : find_one_and_update p u l = (some a, l2)) :
    ∃ pre post, l = pre ++ a :: post ∧ (∀ x ∈ pre, p x = false) ∧
      p a = true ∧ l2 = pre ++ u a :: post := by
  induction l generalizing l2 with
  | nil => simp [find_one_and_update] at h
  | cons d rest ih =>
    by_cases hd : p d
    · simp [find_one_and_update, hd] at h
      obtain ⟨rfl, rfl⟩ := h
      exact ⟨[], rest, rfl, by simp, hd, rfl⟩
    · rcases hr : find_one_and_update p u rest with ⟨o, l3⟩
      simp [find_one_and_update, hd, hr] at h
      obtain ⟨rfl, rfl⟩ := h
      obtain ⟨pre, post, rfl, hpre, hpa, rfl⟩ := ih l3 hr
      refine ⟨d :: pre, post, rfl, ?_, hpa, rfl⟩
      intro x hx
      rcases List.mem_cons.mp hx with rfl | hx2
      · exact Bool.eq_false_iff.mpr hd
      · exact hpre x hx2

theorem find_one_and_update_eq_none {α : Type} (p : α → Bool) (u : α → α)
    (l : List α) (l2 : List α)
    (h : find_one_and_update p u l = (none, l2)) :
    l2 = l ∧ ∀ x ∈ l, p x = false := by
  induction l generalizing l2 with
  | nil =>
    simp [find_one_and_update] at h
    simp [h]
  | cons d rest ih =>
    by_cases hd : p d
    · simp [find_one_and_update, hd] at h
    · rcases hr : find_one_and_update p u rest with ⟨o, l3⟩
      simp [find_one_and_update, hd, hr] at h
      obtain ⟨rfl, rfl⟩ := h
      obtain ⟨rfl, hall⟩ := ih l3 hr
      refine ⟨rfl, ?_⟩
      intro x hx
      rcases List.mem_cons.mp hx with rfl | hx2
      · exact Bool.eq_false_iff.mpr hd
      · exact hall x hx2

/-! ## Metric extraction: C7, C8, C10 -/

/-- C7: metric extraction computes `duration = (actual_end - start) / 1000`
seconds and `delay = (actual_end - scheduled_end) / 1000` seconds, where
`actual_end` is the real-time end time if present and otherwise the
scheduled end time; the itinerary with start 0 ms and end 600000 ms and no
real-time fields yields duration 600 s and delay 0 s, and the same
itinerary with a real-time end 120000 ms past the scheduled end yields
delay 120 s. -/
theorem extract_duration_and_delay (d : RouteOption) :
    ((__extract_relevant_data d).routeDuration
        = ((actual_end_of d.itineraries.headI
            - d.itineraries.headI.startTime : ℤ) : ℚ) / 1000
      ∧ (__extract_relevant_data d).routeDelay
        = ((actual_end_of d.itineraries.headI
            - d.itineraries.headI.endTime : ℤ) : ℚ) / 1000)
    ∧ ((__extract_relevant_data
          (routeOptionOf [exampleItinerary])).routeDuration = 600
      ∧ (__extract_relevant_data
          (routeOptionOf [exampleItinerary])).routeDelay = 0
      ∧ (__extract_relevant_data
          (routeOptionOf [exampleItineraryRt])).routeDelay = 120) := by
  constructor
  · cases h : d.itineraries.headI.rtEndTime <;>
      simp [__extract_relevant_data, actual_end_of, h]
  · refine ⟨?_, ?_, ?_⟩ <;>
      norm_num [__extract_relevant_data, routeOptionOf, exampleItinerary,
        exampleItineraryRt, List.headI]

/-- The mode-change fold of `__extract_relevant_data`: starting the counter
at `c`, the fold adds one per leg whose mode is not the string WALK. -/
theorem changes_foldl_count (legs : List Leg) (c : ℤ) :
    legs.foldl (fun c leg => if leg.mode == "WALK" then c else c + 1) c
      = c + ((legs.filter fun leg => !(leg.mode == "WALK")).length : ℤ) := by
  induction legs generalizing c with
  | nil => simp
  | cons leg rest ih =>
    rw [List.foldl_cons]
    cases h : leg.mode == "WALK" with
    | false =>
      have hif : (if false = true then c else c + 1) = c + 1 := rfl
      have hf : (List.filter (fun leg => !(leg.mode == "WALK"))
            (leg :: rest))
          = leg :: List.filter (fun leg => !(leg.mode == "WALK")) rest := by
        simp [List.filter_cons, h]
      rw [hif, ih (c + 1), hf, List.length_cons]
      push_cast
      ring
    | true =>
      have hif : (if true = true then c else c + 1) = c := rfl
      have hf : (List.filter (fun leg => !(leg.mode == "WALK"))
            (leg :: rest))
          = List.filter (fun leg => !(leg.mode == "WALK")) rest := by
        simp [List.filter_cons, h]
      rw [hif, ih c, hf]

/-- C8: the extracted mode-change count equals
`max 0 (count of legs whose mode is not WALK - 1)`; legs WALK, BUS, WALK
yield 0 changes. -/
theorem extract_changes (d : RouteOption) :
    (__extract_relevant_data d).routeChanges
        = max 0 (((d.itineraries.headI.legs.filter
            fun leg => !(leg.mode == "WALK")).length : ℤ) - 1)
    ∧ (__extract_relevant_data
        (routeOptionOf [exampleItinerary])).routeChanges = 0 := by
  constructor
  · simp only [__extract_relevant_data, changes_foldl_count]
    generalize (d.itineraries.headI.legs.filter
      fun leg => !(leg.mode == "WALK")).length = m
    cases m with
    | zero => simp
    | succ k =>
      have hne : ((-1 : ℤ) + ((k : ℤ) + 1)) ≠ -1 := by omega
      push_cast
      simp only [beq_iff_eq, if_neg hne]
      omega
  · decide

/-- C10: the per-option summary is derived solely from the first itinerary
of the option: two options agreeing on the first itinerary get equal
duration, delay, changes, recalculation count and per-leg data, whatever
their later itineraries. -/
theorem extract_uses_first_itinerary (d1 d2 : RouteOption)
    (h : d1.itineraries.headI = d2.itineraries.headI) :
    (__extract_relevant_data d1).routeDuration
        = (__extract_relevant_data d2).routeDuration
    ∧ (__extract_relevant_data d1).routeDelay
        = (__extract_relevant_data d2).routeDelay
    ∧ (__extract_relevant_data d1).routeChanges
        = (__extract_relevant_data d2).routeChanges
    ∧ (__extract_relevant_data d1).routeRecalculations
        = (__extract_relevant_data d2).routeRecalculations
    ∧ (__extract_relevant_data d1).modes
        = (__extract_relevant_data d2).modes := by
  simp [__extract_relevant_data, h]

/-- C10 witness: two concrete options sharing the first itinerary but
differing in the tail have equal summaries. -/
theorem extract_uses_first_itinerary_witness :
    optionHeadShared.itineraries.headI = optionHeadOnly.itineraries.headI
    ∧ ((__extract_relevant_data optionHeadShared).routeDuration
          = (__extract_relevant_data optionHeadOnly).routeDuration
      ∧ (__extract_relevant_data optionHeadShared).routeDelay
          = (__extract_relevant_data optionHeadOnly).routeDelay
      ∧ (__extract_relevant_data optionHeadShared).routeChanges
          = (__extract_relevant_data optionHeadOnly).routeChanges
      ∧ (__extract_relevant_data optionHeadShared).routeRecalculations
          = (__extract_relevant_data optionHeadOnly).routeRecalculations
      ∧ (__extract_relevant_data optionHeadShared).modes
          = (__extract_relevant_data optionHeadOnly).modes) :=
  ⟨rfl, extract_uses_first_itinerary optionHeadShared optionHeadOnly rfl⟩

/-! ## Stale-job reclamation: C3 -/

/-- C3 counterexample: the reclaim pass carries no simulation filter.  One
invocation (in a run for either simulation) resets running-stale jobs of
both simulation 1 and simulation 2, so "invoked for a given simulation_id
... modifies no other job" fails: the pass invoked during a run for
simulation 1 modifies the stale job of simulation 2, and conversely. -/
theorem reclaim_crosses_simulations :
    __reset_timed_out_jobs [staleJobSimOne, staleJobSimTwo] 600000
      = [{ staleJobSimOne with status := .pending },
         { staleJobSimTwo with status := .pending }]
    ∧ staleJobSimOne.simId ≠ staleJobSimTwo.simId := by
  constructor
  · decide
  · decide

/-- C3 (amended): the reclaim pass, which takes no simulation argument,
sets status back to pending on exactly those jobs (of any simulation)
whose status is running and whose started timestamp is older than now
minus the 5-minute lease, changes no other field of those jobs, modifies
no other job, and re-running it immediately is a no-op. -/
theorem reclaim_stale_frame (jobs : List Job) (now : ℤ) :
    (__reset_timed_out_jobs jobs now).length = jobs.length
    ∧ (∀ (i : ℕ) (j : Job), jobs[i]? = some j → stale_filter now j = true →
        (__reset_timed_out_jobs jobs now)[i]?
          = some { j with status := .pending })
    ∧ (∀ (i : ℕ) (j : Job), jobs[i]? = some j → stale_filter now j = false →
        (__reset_timed_out_jobs jobs now)[i]? = some j)
    ∧ __reset_timed_out_jobs (__reset_timed_out_jobs jobs now) now
        = __reset_timed_out_jobs jobs now := by
  refine ⟨?_, ?_, ?_, ?_⟩
  · simp [__reset_timed_out_jobs, update_many]
  · intro i j hij hs
    simp [__reset_timed_out_jobs, update_many, List.getElem?_map, hij, hs]
  · intro i j hij hs
    simp [__reset_timed_out_jobs, update_many, List.getElem?_map, hij, hs]
  · simp only [__reset_timed_out_jobs, update_many, List.map_map]
    apply List.map_congr_left
    intro j _
    by_cases hs : stale_filter now j = true
    · have hs2 : stale_filter now { j with status := JobStatus.pending }
          = false := by
        simp [stale_filter]
      simp [Function.comp, hs, hs2]
    · simp [Function.comp, Bool.eq_false_iff.mpr hs]

/-! ## The claim protocol: C2 -/

/-- `find_one_and_update` refines the index-based description: it acts at
the first matching index, returns the old document there, and touches
nothing else. -/
theorem find_one_and_update_eq_spec {α : Type} (p : α → Bool) (u : α → α)
    (l : List α) :
    find_one_and_update p u l
      = (match l.findIdx? p with
         | none => (none, l)
         | some i => (l[i]?, l.modify u i)) := by
  induction l with
  | nil => rfl
  | cons d rest ih =>
    cases hd : p d with
    | true =>
      simp [find_one_and_update, hd, List.findIdx?_cons,
        List.modify_zero_cons]
    | false =>
      have hstep : find_one_and_update p u (d :: rest)
          = ((find_one_and_update p u rest).1,
             d :: (find_one_and_update p u rest).2) := by
        simp [find_one_and_update, hd]
      rw [hstep, ih, List.findIdx?_cons]
      cases hr : rest.findIdx? p with
      | none => simp [hd, List.findIdx?_succ, hr]
      | some i =>
        simp [hd, List.findIdx?_succ, hr, List.modify_succ_cons]

/-- The claim filter, read back as a proposition. -/
theorem claim_filter_false_iff (simId : Nat) (j : Job) :
    claim_filter simId j = false
      ↔ ¬(j.status = .pending ∧ j.simId = simId) := by
  simp [claim_filter]

/-- C2: the claim operation is the single find-and-modify with filter
`\x7b status: pending, sim-id \x7d` and update
`\x7b status: running, started: now \x7d`; it returns the job as it
existed before the update, acting at the first matching position and
touching no other document; it returns none exactly when no pending job of
the simulation exists, and on none the worker loop stops with the store
unchanged. -/
theorem claim_next_matches_spec (jobs : List Job) (simId : Nat) (now : ℤ) :
    claim_next jobs simId now = claim_next_spec jobs simId now
    ∧ ((claim_next jobs simId now).1 = none
        ↔ ∀ j ∈ jobs, ¬(j.status = .pending ∧ j.simId = simId))
    ∧ (∀ (env : LoopEnv) (k fuel : Nat) (st : LoopState),
        (claim_next st.jobs env.simId env.now).1 = none →
        loop_go env (fuel + 1) k st = st) := by
  refine ⟨?_, ?_, ?_⟩
  · rw [claim_next, claim_next_spec, find_one_and_update_eq_spec]
  · constructor
    · intro hnone j hj
      rcases hc : claim_next jobs simId now with ⟨o, l2⟩
      rw [hc] at hnone
      simp at hnone
      subst hnone
      obtain ⟨-, hall⟩ := find_one_and_update_eq_none _ _ _ _ hc
      exact (claim_filter_false_iff simId j).mp (hall j hj)
    · intro hall
      rcases hc : claim_next jobs simId now with ⟨o, l2⟩
      cases o with
      | none => rfl
      | some a =>
        obtain ⟨pre, post, hl, -, hpa, -⟩ :=
          find_one_and_update_eq_some _ _ _ _ _ hc
        have ha : a ∈ jobs := by
          rw [hl]; exact List.mem_append_right _ (List.mem_cons_self a post)
        have := (claim_filter_false_iff simId a).mpr (hall a ha)
        rw [this] at hpa
        cases hpa
  · intro env k fuel st hnone
    rcases hc : claim_next st.jobs env.simId env.now with ⟨o, l2⟩
    rw [hc] at hnone
    simp at hnone
    subst hnone
    have hstep : loop_step env k st = .halt st := by
      rw [loop_step, hc]
    rw [loop_go, hstep]

/-! ## Job generation: C4 -/

/-- One generator step either skips (duplicate key) or appends the new
job. -/
theorem insert_job_step_append (acc : List Job) (vc : VirtualCommuter)
    (now : ℤ) (id : Nat) :
    insert_job_step acc vc now id = acc
    ∨ insert_job_step acc vc now id = acc ++ [job_of_vc vc now id] := by
  unfold insert_job_step insert_one
  by_cases h : acc.any (job_conflict (job_of_vc vc now id)) = true
  · left; simp [h]
  · right; simp [Bool.eq_false_iff.mpr h]

/-- The generator fold only appends to the collection. -/
theorem gen_foldl_append (cands : List VirtualCommuter) (b : List Job)
    (now : ℤ) (fresh : Nat → Nat) :
    ∃ suffix,
      cands.foldl (fun acc vc => insert_job_step acc vc now (fresh vc.vcId))
        b = b ++ suffix := by
  induction cands generalizing b with
  | nil => exact ⟨[], by simp⟩
  | cons vc rest ih =>
    obtain ⟨s, hs⟩ := ih (insert_job_step b vc now (fresh vc.vcId))
    rw [List.foldl_cons, hs]
    rcases insert_job_step_append b vc now (fresh vc.vcId) with h | h <;>
      rw [h]
    · exact ⟨s, rfl⟩
    · exact ⟨[job_of_vc vc now (fresh vc.vcId)] ++ s, by simp⟩

/-- After the fold has processed a commuter, the collection holds a job
with that commuter's id (whether the insert succeeded or collided). -/
theorem gen_foldl_covers (cands : List VirtualCommuter) (b : List Job)
    (now : ℤ) (fresh : Nat → Nat) (vc : VirtualCommuter)
    (hvc : vc ∈ cands) :
    ((cands.foldl
        (fun acc v => insert_job_step acc v now (fresh v.vcId)) b).any
      fun j => j.vcId == vc.vcId) = true := by
  induction cands generalizing b with
  | nil => cases hvc
  | cons v rest ih =>
    rw [List.foldl_cons]
    rcases List.mem_cons.mp hvc with rfl | hmem
    · have hacc : ((insert_job_step b vc now (fresh vc.vcId)).any
          fun j => j.vcId == vc.vcId) = true := by
        by_cases h : b.any (job_conflict (job_of_vc vc now (fresh vc.vcId)))
            = true
        · have hstep : insert_job_step b vc now (fresh vc.vcId) = b := by
            unfold insert_job_step insert_one
            simp [h]
          rw [hstep]
          rw [List.any_eq_true] at h ⊢
          obtain ⟨j, hj, hconf⟩ := h
          refine ⟨j, hj, ?_⟩
          simp [job_conflict, job_of_vc, beq_iff_eq] at hconf
          simp [beq_iff_eq, hconf.1]
        · have hfalse : (b.any (job_conflict
              (job_of_vc vc now (fresh vc.vcId)))) = false :=
            Bool.eq_false_iff.mpr h
          have hstep : insert_job_step b vc now (fresh vc.vcId)
              = b ++ [job_of_vc vc now (fresh vc.vcId)] := by
            unfold insert_job_step insert_one
            simp [hfalse]
          rw [hstep, List.any_append]
          have hone : (([job_of_vc vc now (fresh vc.vcId)]).any
              fun j => j.vcId == vc.vcId) = true := by
            simp [job_of_vc]
          rw [hone, Bool.or_true]
      obtain ⟨s, hs⟩ := gen_foldl_append rest _ now fresh
      rw [hs, List.any_append, hacc, Bool.true_or]
    · exact ih _ hmem

/-- With pairwise-distinct commuter ids and no pre-existing job for any of
them, every insert succeeds: the fold appends exactly one pending job per
commuter. -/
theorem gen_foldl_fresh (cands : List VirtualCommuter) (b : List Job)
    (now : ℤ) (fresh : Nat → Nat)
    (hnd : (cands.map VirtualCommuter.vcId).Nodup)
    (hb : ∀ vc ∈ cands, (b.any fun j => j.vcId == vc.vcId) = false) :
    cands.foldl (fun acc vc => insert_job_step acc vc now (fresh vc.vcId)) b
      = b ++ cands.map (fun vc => job_of_vc vc now (fresh vc.vcId)) := by
  induction cands generalizing b with
  | nil => simp
  | cons vc rest ih =>
    rw [List.foldl_cons]
    have hstep : insert_job_step b vc now (fresh vc.vcId)
        = b ++ [job_of_vc vc now (fresh vc.vcId)] := by
      unfold insert_job_step insert_one
      have hnc : (b.any (job_conflict (job_of_vc vc now (fresh vc.vcId))))
          = false := by
        rw [List.any_eq_false]
        intro j hj
        have hvcany := hb vc (List.mem_cons_self vc rest)
        rw [List.any_eq_false] at hvcany
        have hne := hvcany j hj
        simp [beq_iff_eq] at hne
        simp [job_conflict, job_of_vc, beq_iff_eq]
        intro he
        exact absurd he.symm hne
      simp [hnc]
    rw [hstep]
    have hnd2 := List.nodup_cons.mp hnd
    have hb2 : ∀ v ∈ rest,
        ((b ++ [job_of_vc vc now (fresh vc.vcId)]).any
          fun j => j.vcId == v.vcId) = false := by
      intro v hv
      rw [List.any_append]
      have hone : (([job_of_vc vc now (fresh vc.vcId)]).any
          fun j => j.vcId == v.vcId) = false := by
        simp [job_of_vc, beq_iff_eq]
        intro he
        exact absurd (he ▸ List.mem_map_of_mem VirtualCommuter.vcId hv)
          hnd2.1
      rw [hb v (List.mem_cons_of_mem vc hv), hone]
      rfl
    rw [ih _ hnd2.2 hb2, List.map_cons, List.append_assoc]
    rfl

/-- One generator step preserves distinctness of the unique-index keys. -/
theorem insert_job_step_nodup (acc : List Job) (vc : VirtualCommuter)
    (now : ℤ) (id : Nat) (h : (acc.map job_key).Nodup) :
    ((insert_job_step acc vc now id).map job_key).Nodup := by
  unfold insert_job_step insert_one
  by_cases hc : acc.any (job_conflict (job_of_vc vc now id)) = true
  · simpa [hc]
  · simp only [Bool.eq_false_iff.mpr hc, if_false, Bool.false_eq_true]
    rw [List.map_append]
    refine List.Nodup.append h (List.nodup_singleton _) ?_
    intro k hk1 hk2
    simp only [List.map_cons, List.map_nil, List.mem_singleton] at hk2
    rw [List.mem_map] at hk1
    obtain ⟨j, hj, hkey⟩ := hk1
    have hc2 := Bool.eq_false_iff.mpr hc
    rw [List.any_eq_false] at hc2
    have hcj := hc2 j hj
    simp [job_conflict, job_of_vc, beq_iff_eq] at hcj
    rw [hk2] at hkey
    simp [job_key, job_of_vc] at hkey
    exact hcj hkey.1.symm hkey.2.symm

/-- The generator fold preserves distinctness of the unique-index keys:
the duplicate-key skip guarantees no duplicate job is ever created. -/
theorem gen_foldl_nodup (cands : List VirtualCommuter) (b : List Job)
    (now : ℤ) (fresh : Nat → Nat) (h : (b.map job_key).Nodup) :
    ((cands.foldl
        (fun acc vc => insert_job_step acc vc now (fresh vc.vcId)) b).map
      job_key).Nodup := by
  induction cands generalizing b with
  | nil => simpa
  | cons vc rest ih =>
    exact ih _ (insert_job_step_nodup _ _ _ _ h)

/-- Running the generator again right away finds no commuter without a
job, so it adds nothing. -/
theorem gen_second_run (vcs : List VirtualCommuter) (jobs : List Job)
    (simId : Nat) (now now2 : ℤ) (fresh fresh2 : Nat → Nat) :
    __create_route_calculation_jobs vcs
        (__create_route_calculation_jobs vcs jobs simId now fresh) simId
        now2 fresh2
      = __create_route_calculation_jobs vcs jobs simId now fresh := by
  have hempty : candidate_vcs vcs
      (__create_route_calculation_jobs vcs jobs simId now fresh) simId
      = [] := by
    rw [candidate_vcs, List.filter_eq_nil_iff]
    intro vc hvc
    by_cases hsim : vc.simId = simId
    · have hany : ((__create_route_calculation_jobs vcs jobs simId now
          fresh).any fun j => j.vcId == vc.vcId) = true := by
        by_cases hjobs : (jobs.any fun j => j.vcId == vc.vcId) = true
        · obtain ⟨s, hs⟩ :=
            gen_foldl_append (candidate_vcs vcs jobs simId) jobs now fresh
          rw [__create_route_calculation_jobs, hs, List.any_append, hjobs,
            Bool.true_or]
        · have hc : vc ∈ candidate_vcs vcs jobs simId := by
            rw [candidate_vcs, List.mem_filter]
            refine ⟨hvc, ?_⟩
            simp [hsim, Bool.eq_false_iff.mpr hjobs]
          exact gen_foldl_covers _ _ _ _ _ hc
      simp [hany]
    · simp [hsim]
  conv_lhs => rw [__create_route_calculation_jobs, hempty]
  rfl

/-- C4: with distinct commuter ids, job generation appends exactly one
pending job, carrying a created timestamp, per commuter of the simulation
that has no job record yet; the duplicate-key skip keeps the unique-index
keys duplicate-free; and re-running the generator creates nothing new. -/
theorem create_missing_jobs_idempotent (vcs : List VirtualCommuter)
    (jobs : List Job) (simId : Nat) (now now2 : ℤ)
    (fresh fresh2 : Nat → Nat)
    (h1 : (vcs.map VirtualCommuter.vcId).Nodup)
    (h2 : (jobs.map job_key).Nodup) :
    __create_route_calculation_jobs vcs jobs simId now fresh
        = jobs ++ (candidate_vcs vcs jobs simId).map
            (fun vc => job_of_vc vc now (fresh vc.vcId))
    ∧ ((__create_route_calculation_jobs vcs jobs simId now fresh).map
        job_key).Nodup
    ∧ __create_route_calculation_jobs vcs
          (__create_route_calculation_jobs vcs jobs simId now fresh) simId
          now2 fresh2
        = __create_route_calculation_jobs vcs jobs simId now fresh := by
  refine ⟨?_, gen_foldl_nodup _ _ _ _ h2, gen_second_run _ _ _ _ _ _ _⟩
  rw [__create_route_calculation_jobs]
  apply gen_foldl_fresh
  · exact h1.sublist ((List.filter_sublist _).map _)
  · intro vc hvc
    rw [candidate_vcs, List.mem_filter] at hvc
    have h := (Bool.and_eq_true _ _).mp hvc.2
    simpa using h.2

/-- C4 witness: three commuters, one of them with an existing job; the
generator creates jobs for exactly the two commuters of simulation 1
without one, keeps keys distinct, and a second run is a no-op. -/
theorem create_missing_jobs_idempotent_witness :
    (([vcOne, vcTwo, vcThree].map VirtualCommuter.vcId).Nodup
      ∧ ([existingJob].map job_key).Nodup)
    ∧ (__create_route_calculation_jobs [vcOne, vcTwo, vcThree] [existingJob]
          1 5 (fun n => 100 + n) =
        [existingJob] ++ (candidate_vcs [vcOne, vcTwo, vcThree]
          [existingJob] 1).map (fun vc => job_of_vc vc 5 (100 + vc.vcId))
      ∧ ((__create_route_calculation_jobs [vcOne, vcTwo, vcThree]
          [existingJob] 1 5 (fun n => 100 + n)).map job_key).Nodup
      ∧ __create_route_calculation_jobs [vcOne, vcTwo, vcThree]
          (__create_route_calculation_jobs [vcOne, vcTwo, vcThree]
            [existingJob] 1 5 (fun n => 100 + n)) 1 9 (fun n => 200 + n)
        = __create_route_calculation_jobs [vcOne, vcTwo, vcThree]
            [existingJob] 1 5 (fun n => 100 + n)) :=
  ⟨⟨by decide, by decide⟩,
    create_missing_jobs_idempotent [vcOne, vcTwo, vcThree] [existingJob]
      1 5 9 (fun n => 100 + n) (fun n => 200 + n) (by decide) (by decide)⟩

/-! ## Mode combinations: C6 -/

/-- A returned route option carries the requested modes and a non-empty
itinerary list. -/
theorem get_route_option_some (vc : VirtualCommuter) (u : Bool)
    (eD : List String → Option Itinerary)
    (eN : List String → Option (List Itinerary)) (oid : String)
    (modes : List String) (o : RouteOption)
    (h : __get_route_option vc u eD eN oid modes = some o) :
    o.modes = modes ∧ o.itineraries ≠ [] := by
  rw [__get_route_option] at h
  cases u with
  | true =>
    cases hD : eD modes with
    | none => rw [hD] at h; simp at h
    | some it =>
      rw [hD] at h
      simp at h
      rw [← h]
      exact ⟨rfl, by simp⟩
  | false =>
    cases hN : eN modes with
    | none => rw [hN] at h; simp at h
    | some its =>
      rw [hN] at h
      cases its with
      | nil => simp at h
      | cons a l =>
        simp at h
        rw [← h]
        exact ⟨rfl, by simp⟩

/-- C6: the candidate mode combinations are walk+transit always, plus
walk+car exactly when the commuter has vehicle access; a combination is
dropped exactly when its routing request yields no itinerary; every
returned option carries one of the candidate combinations and a non-empty
itinerary list. -/
theorem route_virtual_commuter_modes (vc : VirtualCommuter)
    (uses_delays : Bool) (eD : List String → Option Itinerary)
    (eN : List String → Option (List Itinerary))
    (uuid : List String → String) :
    __route_virtual_commuter vc uses_delays eD eN uuid
        = (if has_motor_vehicle vc
           then [["WALK", "TRANSIT"], ["WALK", "CAR"]]
           else [["WALK", "TRANSIT"]]).filterMap
            (fun modes =>
              __get_route_option vc uses_delays eD eN (uuid modes) modes)
    ∧ (∀ modes oid, __get_route_option vc uses_delays eD eN oid modes = none
        ↔ (if uses_delays then eD modes = none
           else (eN modes = none ∨ eN modes = some [])))
    ∧ (∀ o ∈ __route_virtual_commuter vc uses_delays eD eN uuid,
        o.itineraries ≠ []
        ∧ (o.modes = ["WALK", "TRANSIT"]
           ∨ (o.modes = ["WALK", "CAR"] ∧ has_motor_vehicle vc = true))) := by
  have h1 : __route_virtual_commuter vc uses_delays eD eN uuid
      = (if has_motor_vehicle vc
         then [["WALK", "TRANSIT"], ["WALK", "CAR"]]
         else [["WALK", "TRANSIT"]]).filterMap
          (fun modes =>
            __get_route_option vc uses_delays eD eN (uuid modes) modes) := by
    have key : ∀ (l : List (List String)),
        (l.map (fun modes =>
          __get_route_option vc uses_delays eD eN
            (uuid modes) modes)).filterMap id
          = l.filterMap (fun modes =>
              __get_route_option vc uses_delays eD eN (uuid modes) modes) := by
      intro l
      induction l with
      | nil => rfl
      | cons a l ih =>
        simp only [List.map_cons, List.filterMap_cons, id_eq, ih]
    have hcombo : (([["WALK", "TRANSIT"]] ++
        (if has_motor_vehicle vc then [["WALK", "CAR"]] else []))
          : List (List String))
        = (if has_motor_vehicle vc
           then [["WALK", "TRANSIT"], ["WALK", "CAR"]]
           else [["WALK", "TRANSIT"]]) := by
      cases h : has_motor_vehicle vc <;> simp
    simp only [__route_virtual_commuter]
    rw [hcombo, key]
  refine ⟨h1, ?_, ?_⟩
  · intro modes oid
    rw [__get_route_option]
    cases uses_delays with
    | true =>
      cases hD : eD modes with
      | none => simp [hD]
      | some it => simp [hD]
    | false =>
      cases hN : eN modes with
      | none => simp [hN]
      | some its =>
        cases its with
        | nil => simp [hN]
        | cons a l => simp [hN]
  · intro o ho
    rw [h1, List.mem_filterMap] at ho
    obtain ⟨modes, hmodes, hopt⟩ := ho
    obtain ⟨homodes, hne⟩ :=
      get_route_option_some vc uses_delays eD eN (uuid modes) modes o hopt
    refine ⟨hne, ?_⟩
    cases hmv : has_motor_vehicle vc with
    | false =>
      rw [hmv] at hmodes
      simp at hmodes
      left
      rw [homodes, hmodes]
    | true =>
      rw [hmv] at hmodes
      simp at hmodes
      rcases hmodes with rfl | rfl
      · left; exact homodes
      · right; exact ⟨homodes, rfl⟩

/-! ## Result persistence: C5 -/

/-- `update_one` at the first matching position: everything before and
after is untouched. -/
theorem update_one_at_first {α : Type} (p : α → Bool) (u : α → α)
    (pre : List α) (d : α) (post : List α)
    (hpre : ∀ x ∈ pre, p x = false) (hd : p d = true) :
    update_one p u (pre ++ d :: post) = pre ++ (u d :: post) := by
  induction pre with
  | nil => simp [update_one, hd]
  | cons x pre ih =>
    have hx := hpre x (List.mem_cons_self x pre)
    simp only [List.cons_append, update_one, hx, Bool.false_eq_true,
      if_false]
    show x :: update_one p u (pre ++ d :: post) = x :: (pre ++ u d :: post)
    rw [ih fun y hy => hpre y (List.mem_cons_of_mem x hy)]

/-- With no document for the commuter present, the result upsert is a
plain insert. -/
theorem upsert_result_inserts (coll : List ResultDoc) (doc : ResultDoc)
    (h : ∀ d ∈ coll, d.vcId ≠ doc.vcId) :
    upsert_result coll doc = coll ++ [doc] := by
  have hany : (coll.any (result_conflict doc)) = false := by
    rw [List.any_eq_false]
    intro d hd
    simp [result_conflict, beq_iff_eq]
    exact fun he => (h d hd) he.symm
  rw [upsert_result, insert_one]
  simp [hany]

/-- With a document for the commuter present, the result upsert hits the
duplicate-key handler: the first such document takes the new content and
keeps its store id; every other document is untouched. -/
theorem upsert_result_updates (pre : List ResultDoc) (d : ResultDoc)
    (post : List ResultDoc) (doc : ResultDoc) (hd : d.vcId = doc.vcId)
    (hpre : ∀ x ∈ pre, x.vcId ≠ doc.vcId) :
    upsert_result (pre ++ d :: post) doc
      = pre ++ ({ doc with storeId := d.storeId } :: post) := by
  have hany : ((pre ++ d :: post).any (result_conflict doc)) = true := by
    rw [List.any_eq_true]
    exact ⟨d, by simp, by simp [result_conflict, beq_iff_eq, hd]⟩
  have hins : insert_one result_conflict (pre ++ d :: post) doc = none := by
    rw [insert_one]
    simp [hany]
  rw [upsert_result, hins]
  exact update_one_at_first _ _ pre d post
    (fun x hx => by
      simp [beq_iff_eq]
      exact hpre x hx)
    (by simp [beq_iff_eq, hd])

/-- With no summary for the commuter present, the summary upsert is a
plain insert. -/
theorem upsert_summary_inserts (coll : List SummaryDoc) (doc : SummaryDoc)
    (h : ∀ d ∈ coll, d.vcId ≠ doc.vcId) :
    upsert_summary coll doc = coll ++ [doc] := by
  have hany : (coll.any (summary_conflict doc)) = false := by
    rw [List.any_eq_false]
    intro d hd
    simp [summary_conflict, beq_iff_eq]
    exact fun he => (h d hd) he.symm
  rw [upsert_summary, insert_one]
  simp [hany]

/-- With a summary for the commuter present, the summary upsert converts
to an in-place update preserving the store id. -/
theorem upsert_summary_updates (pre : List SummaryDoc) (d : SummaryDoc)
    (post : List SummaryDoc) (doc : SummaryDoc) (hd : d.vcId = doc.vcId)
    (hpre : ∀ x ∈ pre, x.vcId ≠ doc.vcId) :
    upsert_summary (pre ++ d :: post) doc
      = pre ++ ({ doc with storeId := d.storeId } :: post) := by
  have hany : ((pre ++ d :: post).any (summary_conflict doc)) = true := by
    rw [List.any_eq_true]
    exact ⟨d, by simp, by simp [summary_conflict, beq_iff_eq, hd]⟩
  have hins : insert_one summary_conflict (pre ++ d :: post) doc
      = none := by
    rw [insert_one]
    simp [hany]
  rw [upsert_summary, hins]
  exact update_one_at_first _ _ pre d post
    (fun x hx => by
      simp [beq_iff_eq]
      exact hpre x hx)
    (by simp [beq_iff_eq, hd])

/-- C5: with at least one route found, result persistence succeeds and is
the insert-or-on-conflict-update pattern on both collections: a fresh
insert when no document for the commuter exists, otherwise an in-place
update of the first existing document with the new content minus the
store-assigned id; no exception escapes to the job, whatever the prior
contents of the two collections. -/
theorem process_vc_upsert (rc : List ResultDoc) (oc : List SummaryDoc)
    (vc : VirtualCommuter) (u : Bool)
    (eD : List String → Option Itinerary)
    (eN : List String → Option (List Itinerary))
    (uuid : List String → String) (now : ℤ) (meta : String)
    (rid sid : Nat)
    (h : __route_virtual_commuter vc u eD eN uuid ≠ []) :
    __process_virtual_commuter rc oc vc u eD eN uuid now meta rid sid
        = .ok
          (upsert_result rc (fresh_result_doc vc
              (__route_virtual_commuter vc u eD eN uuid) now meta rid),
           upsert_summary oc (fresh_summary_doc vc
              (__route_virtual_commuter vc u eD eN uuid) now sid))
    ∧ ((∀ d ∈ rc, d.vcId ≠ vc.vcId) →
        upsert_result rc (fresh_result_doc vc
            (__route_virtual_commuter vc u eD eN uuid) now meta rid)
          = rc ++ [fresh_result_doc vc
              (__route_virtual_commuter vc u eD eN uuid) now meta rid])
    ∧ (∀ pre d post, rc = pre ++ d :: post → d.vcId = vc.vcId →
        (∀ x ∈ pre, x.vcId ≠ vc.vcId) →
        upsert_result rc (fresh_result_doc vc
            (__route_virtual_commuter vc u eD eN uuid) now meta rid)
          = pre ++ ({ fresh_result_doc vc
              (__route_virtual_commuter vc u eD eN uuid) now meta rid with
                storeId := d.storeId } :: post))
    ∧ ((∀ d ∈ oc, d.vcId ≠ vc.vcId) →
        upsert_summary oc (fresh_summary_doc vc
            (__route_virtual_commuter vc u eD eN uuid) now sid)
          = oc ++ [fresh_summary_doc vc
              (__route_virtual_commuter vc u eD eN uuid) now sid])
    ∧ (∀ pre d post, oc = pre ++ d :: post → d.vcId = vc.vcId →
        (∀ x ∈ pre, x.vcId ≠ vc.vcId) →
        upsert_summary oc (fresh_summary_doc vc
            (__route_virtual_commuter vc u eD eN uuid) now sid)
          = pre ++ ({ fresh_summary_doc vc
              (__route_virtual_commuter vc u eD eN uuid) now sid with
                storeId := d.storeId } :: post)) := by
  refine ⟨?_, ?_, ?_, ?_, ?_⟩
  · rw [__process_virtual_commuter]
    have hlen : ((__route_virtual_commuter vc u eD eN uuid).length == 0)
        = false := by
      simp [List.length_eq_zero]
      exact h
    rw [hlen]
    rfl
  · exact fun hall => upsert_result_inserts rc _ hall
  · intro pre d post hrc hd hpre
    rw [hrc]
    exact upsert_result_updates pre d post _ hd hpre
  · exact fun hall => upsert_summary_inserts oc _ hall
  · intro pre d post hoc hd hpre
    rw [hoc]
    exact upsert_summary_updates pre d post _ hd hpre

/-- C5 witness: commuter 7 has an old result document but no summary; the
process succeeds, updating the one and inserting the other. -/
theorem process_vc_upsert_witness :
    (__route_virtual_commuter vcSeven false engineNoDelayed engineOneRoute
        uuidFixed ≠ [])
    ∧ __process_virtual_commuter [oldResultDoc] [] vcSeven false
        engineNoDelayed engineOneRoute uuidFixed 10 "m" 500 501
      = .ok
        (upsert_result [oldResultDoc] (fresh_result_doc vcSeven
            (__route_virtual_commuter vcSeven false engineNoDelayed
              engineOneRoute uuidFixed) 10 "m" 500),
         upsert_summary [] (fresh_summary_doc vcSeven
            (__route_virtual_commuter vcSeven false engineNoDelayed
              engineOneRoute uuidFixed) 10 501)) :=
  ⟨by decide,
    (process_vc_upsert [oldResultDoc] [] vcSeven false engineNoDelayed
      engineOneRoute uuidFixed 10 "m" 500 501 (by decide)).1⟩

/-! ## Skipping unrouted commuters: C9 -/

/-- `update_one` puts the updated image of some matching element into the
collection whenever a match exists. -/
theorem update_one_mem_updated {α : Type} (p : α → Bool) (u : α → α)
    (l : List α) (hx : ∃ x ∈ l, p x = true) :
    ∃ x, x ∈ l ∧ p x = true ∧ u x ∈ update_one p u l := by
  induction l with
  | nil =>
    obtain ⟨x, hx1, _⟩ := hx
    cases hx1
  | cons d rest ih =>
    by_cases hd : p d = true
    · refine ⟨d, List.mem_cons_self d rest, hd, ?_⟩
      simp [update_one, hd]
    · obtain ⟨x, hx1, hx2⟩ := hx
      rcases List.mem_cons.mp hx1 with rfl | hmem
      · exact absurd hx2 hd
      · obtain ⟨y, hm, hp, hu⟩ := ih ⟨x, hmem, hx2⟩
        refine ⟨y, List.mem_cons_of_mem d hm, hp, ?_⟩
        have hstep : update_one p u (d :: rest)
            = d :: update_one p u rest := by
          simp [update_one, Bool.eq_false_iff.mpr hd]
        rw [hstep]
        exact List.mem_cons_of_mem d hu

/-- C9: when the claimed job's commuter is flagged as not to be routed,
the iteration commits the job as done with a finished timestamp, leaves
the result and summary collections untouched, behaves identically under
any routing engine (the engine is never consulted), and does not change
the error counter; a done job with the claimed id and a finished timestamp
is then in the store. -/
theorem skip_unrouted_commuter (env env2 : LoopEnv) (k : Nat)
    (st : LoopState) (job : Job) (jobs1 : List Job)
    (vc : VirtualCommuter)
    (hclaim : claim_next st.jobs env.simId env.now = (some job, jobs1))
    (hvc : find_one (fun v => v.vcId == job.vcId) env.vcs = some vc)
    (hsr : should_route vc = false)
    (hsame : env2.simId = env.simId ∧ env2.vcs = env.vcs
      ∧ env2.now = env.now) :
    loop_step env k st
        = .next { jobs := commit_done jobs1 job.jobId env.now,
                  results := st.results, summaries := st.summaries,
                  cec := st.cec,
                  stoppedByBreaker := st.stoppedByBreaker }
    ∧ loop_step env2 k st = loop_step env k st
    ∧ ∃ j2 ∈ commit_done jobs1 job.jobId env.now,
        j2.jobId = job.jobId ∧ j2.status = .done
        ∧ j2.finished = some env.now := by
  have hbody : ∀ rc oc, loop_try_body env k rc oc job.vcId
      = Except.ok (rc, oc) := by
    intro rc oc
    rw [loop_try_body, hvc]
    simp [hsr]
  have he1 : loop_step env k st
      = .next { jobs := commit_done jobs1 job.jobId env.now,
                results := st.results, summaries := st.summaries,
                cec := st.cec,
                stoppedByBreaker := st.stoppedByBreaker } := by
    rw [loop_step, hclaim]
    change loop_after_claim env k st job jobs1 = _
    rw [loop_after_claim, hbody st.results st.summaries]
  refine ⟨he1, ?_, ?_⟩
  · have hbody2 : ∀ rc oc, loop_try_body env2 k rc oc job.vcId
        = Except.ok (rc, oc) := by
      intro rc oc
      rw [loop_try_body, hsame.2.1, hvc]
      simp [hsr]
    have hclaim2 : claim_next st.jobs env2.simId env2.now
        = (some job, jobs1) := by
      rw [hsame.1, hsame.2.2]
      exact hclaim
    have he2 : loop_step env2 k st
        = .next { jobs := commit_done jobs1 job.jobId env2.now,
                  results := st.results, summaries := st.summaries,
                  cec := st.cec,
                  stoppedByBreaker := st.stoppedByBreaker } := by
      rw [loop_step, hclaim2]
      change loop_after_claim env2 k st job jobs1 = _
      rw [loop_after_claim, hbody2 st.results st.summaries]
    rw [he2, he1, hsame.2.2]
  · obtain ⟨pre, post, -, -, hpa, hjobs1⟩ :=
      find_one_and_update_eq_some _ _ _ _ _ hclaim
    have hmem : ∃ x ∈ jobs1, (x.jobId == job.jobId) = true := by
      refine ⟨claim_update env.now job, ?_, by simp [claim_update]⟩
      rw [hjobs1]
      exact List.mem_append_right _ (List.mem_cons_self _ _)
    obtain ⟨x, hxmem, hxp, hxu⟩ :=
      update_one_mem_updated (fun j => j.jobId == job.jobId)
        (fun j => { j with status := .done, finished := some env.now })
        jobs1 hmem
    refine ⟨{ x with status := .done, finished := some env.now }, hxu,
      ?_, rfl, rfl⟩
    simpa [beq_iff_eq] using hxp

/-- C9 witness: the concrete unrouted commuter: its claimed job is
committed done at time 42, no result documents are written, and a
completely different engine gives the identical step. -/
theorem skip_unrouted_commuter_witness :
    (claim_next stSkip.jobs envSkip.simId envSkip.now
        = (some jobSkip, jobsSkipAfter)
      ∧ find_one (fun v => v.vcId == jobSkip.vcId) envSkip.vcs
        = some vcNoRoute
      ∧ should_route vcNoRoute = false)
    ∧ (loop_step envSkip 0 stSkip
        = .next { jobs := commit_done jobsSkipAfter jobSkip.jobId
                    envSkip.now,
                  results := stSkip.results,
                  summaries := stSkip.summaries, cec := stSkip.cec,
                  stoppedByBreaker := stSkip.stoppedByBreaker }
      ∧ loop_step envSkipAlt 0 stSkip = loop_step envSkip 0 stSkip
      ∧ ∃ j2 ∈ commit_done jobsSkipAfter jobSkip.jobId envSkip.now,
          j2.jobId = jobSkip.jobId ∧ j2.status = .done
          ∧ j2.finished = some envSkip.now) :=
  ⟨⟨by decide, by decide, rfl⟩,
    skip_unrouted_commuter envSkip envSkipAlt 0 stSkip jobSkip
      jobsSkipAfter vcNoRoute (by decide) (by decide) rfl
      ⟨rfl, rfl, rfl⟩⟩

/-! ## The circuit breaker: C1 -/

/-- C1 evaluation, exhibiting the bug: over ten pending jobs whose
processing alternates failure, success, failure, ... (so no two failures
are ever consecutive — the last conjunct checks the engine pattern), the
worker still trips the breaker: the loop ends with `stoppedByBreaker`,
the error counter at 5, and a pending job left unclaimed.  The code never
resets `consecutive_error_number` on a successful commit, contradicting
its own comment ("multiple consecutive errors") and the spec. -/
theorem breaker_counts_nonconsecutive_failures :
    (__iterate_jobs breakerEnv breakerJobs [] []).stoppedByBreaker = true
    ∧ (__iterate_jobs breakerEnv breakerJobs [] []).cec = 5
    ∧ ((__iterate_jobs breakerEnv breakerJobs [] []).jobs.any
        fun j => j.status == .pending) = true
    ∧ ((List.range 8).all fun k =>
        !((breakerEnv.engineNormal k ["WALK", "TRANSIT"]).isNone
          && (breakerEnv.engineNormal (k + 1)
                ["WALK", "TRANSIT"]).isNone)) = true := by
  refine ⟨?_, ?_, ?_, ?_⟩ <;> decide

end VcRouter
